import Mathlib

/-!
Verification of the relacio-backend real-time session and quota layer.

The definitions below are a shallow embedding of the JavaScript source:
pure functions mirror the model methods and route/socket handlers, with
persistent-store documents as Lean structures, JavaScript `undefined`
as `Option.none`, and Mongoose validation/`pre('save')` hooks folded
into explicit `save` functions.
-/

namespace Relacio

/-- User identifiers (Mongo ObjectIds, abstracted as naturals). -/
abbrev UserId := Nat

/-- The calendar components a JS `Date` exposes through `getFullYear` /
`getMonth` / `getDate`; time of day is irrelevant to every embedded
operation, so it is omitted. -/
structure JsDate where
  year : Int
  month : Int
  day : Int
deriving DecidableEq, Repr

/-- Calendar day `b` is strictly later than calendar day `a`. -/
def laterCalendarDay (a b : JsDate) : Prop :=
  a.year < b.year ∨ (a.year = b.year ∧ (a.month < b.month ∨ (a.month = b.month ∧ a.day < b.day)))

instance (a b : JsDate) : Decidable (laterCalendarDay a b) := by
  unfold laterCalendarDay; infer_instance

/-- JS strict `<` on possibly-undefined numbers: any comparison against
`undefined` is `NaN`-poisoned and yields `false`. -/
def jsLt : Option Int → Option Int → Bool
  | some a, some b => a < b
  | _, _ => false

/-! ## Subscription / quota ledger (src/models/Subscription.js, src/services/rateLimitService.js) -/

/-- Plans from `SUBSCRIPTION_CONSTANTS.PLANS`. -/
inductive Plan
  | free
  | premium
  | platinum
deriving DecidableEq, Repr

/-- The gated feature names used by `rateLimitService.checkFeatureLimit`
(`videoCalls`, `voiceCalls`, `likes`, `superLikes`, `messages`). -/
inductive Feature
  | videoCalls
  | voiceCalls
  | likes
  | superLikes
  | messages
deriving DecidableEq, Repr

/-- The `features` subdocument of a Subscription: the per-day limits the
schema always materialises (from the plan defaults). -/
structure SubFeatures where
  videoCallsPerDay : Int
  voiceCallsPerDay : Int
  likesPerDay : Int
  superLikesPerDay : Int
deriving DecidableEq, Repr

/-- Dynamic access `features[feature + 'PerDay']`: the schema holds no
`messagesPerDay` path, so that lookup is JS `undefined` (`none`). -/
def SubFeatures.get (fs : SubFeatures) : Feature → Option Int
  | .videoCalls => some fs.videoCallsPerDay
  | .voiceCalls => some fs.voiceCallsPerDay
  | .likes => some fs.likesPerDay
  | .superLikes => some fs.superLikesPerDay
  | .messages => none

/-- `SUBSCRIPTION_CONSTANTS.FEATURES`: the static per-plan limit table
(`-1` is the unlimited sentinel). -/
def featuresFor : Plan → SubFeatures
  | .free => ⟨2, 5, 20, 1⟩
  | .premium => ⟨10, 20, 50, 5⟩
  | .platinum => ⟨-1, -1, -1, 10⟩

/-- The `usage` subdocument: today's counters plus `lastResetDate`. -/
structure SubUsage where
  videoCallsToday : Int
  voiceCallsToday : Int
  likesToday : Int
  superLikesToday : Int
  lastResetDate : JsDate
deriving DecidableEq, Repr

/-- Dynamic access `usage[feature + 'Today']`; no `messagesToday` path
exists, so that lookup is `undefined` (`none`). -/
def SubUsage.get (u : SubUsage) : Feature → Option Int
  | .videoCalls => some u.videoCallsToday
  | .voiceCalls => some u.voiceCallsToday
  | .likes => some u.likesToday
  | .superLikes => some u.superLikesToday
  | .messages => none

/-- Write `usage[feature + 'Today'] := v`.  The schema strips the unknown
`messagesToday` path on save, so writing it is a no-op. -/
def SubUsage.set (u : SubUsage) : Feature → Int → SubUsage
  | .videoCalls, v => { u with videoCallsToday := v }
  | .voiceCalls, v => { u with voiceCallsToday := v }
  | .likes, v => { u with likesToday := v }
  | .superLikes, v => { u with superLikesToday := v }
  | .messages, _ => u

/-- A Subscription document (the quota-relevant paths). -/
structure Subscription where
  plan : Plan
  features : SubFeatures
  usage : SubUsage
deriving DecidableEq, Repr

/-- A fresh subscription as the schema defaults build it. -/
def Subscription.fresh (p : Plan) (today : JsDate) : Subscription :=
  ⟨p, featuresFor p, ⟨0, 0, 0, 0, today⟩⟩

/-- `resetDailyUsageIfNeeded`: if `now` falls on a different calendar day
(`getDate`/`getMonth`/`getFullYear` mismatch) than `lastResetDate`, zero
all counters and advance `lastResetDate` to `now`. -/
def resetDailyUsageIfNeeded (now : JsDate) (s : Subscription) : Subscription :=
  let lastReset := s.usage.lastResetDate
  if now.day ≠ lastReset.day ∨ now.month ≠ lastReset.month ∨ now.year ≠ lastReset.year then
    { s with usage := ⟨0, 0, 0, 0, now⟩ }
  else
    s

/-- `canPerformAction`: reset if needed, then allow when the limit is the
`-1` sentinel, otherwise when `currentUsage < limit` (JS `<`, false on
`undefined`).  Returns the possibly-reset document together with the
decision. -/
def canPerformAction (now : JsDate) (s : Subscription) (f : Feature) : Subscription × Bool :=
  let s' := resetDailyUsageIfNeeded now s
  let limit := s'.features.get f
  let currentUsage := s'.usage.get f
  (s', if limit = some (-1) then true else jsLt currentUsage limit)

/-- `incrementUsage`: reset if needed, then `usage[key] += 1` and save. -/
def incrementUsage (now : JsDate) (s : Subscription) (f : Feature) : Subscription :=
  let s' := resetDailyUsageIfNeeded now s
  match s'.usage.get f with
  | some u => { s' with usage := s'.usage.set f (u + 1) }
  | none => s'

/-- `rateLimitService.checkFeatureLimit`: load the subscription (absent →
`false` via the catch) and delegate to `canPerformAction`. -/
def checkFeatureLimit (sub : Option Subscription) (now : JsDate) (f : Feature) : Bool :=
  match sub with
  | none => false
  | some s => (canPerformAction now s f).2

/-! ## Match model (src/models/Match.js) and matching service -/

/-- `MATCH_CONSTANTS.ACTIONS`. -/
inductive SwipeAction
  | like
  | pass
  | superLike
  | pending
deriving DecidableEq, Repr

/-- A Match document.  `id` stands for the Mongo `_id`; `createdAt` is a
millisecond timestamp from the `timestamps` option. -/
structure MatchDoc where
  id : Nat
  user1Id : UserId
  user2Id : UserId
  user1Action : SwipeAction
  user2Action : SwipeAction
  isMatch : Bool
  matchedAt : Option Int
  createdAt : Int
deriving DecidableEq, Repr

/-- The second `pre('save')` hook of the Match schema: `isMatch := true`
exactly when both actions are `like`, stamping `matchedAt` only if it is
not already set; in every other case `isMatch := false` and `matchedAt`
is cleared. -/
def matchPreSave (now : Int) (m : MatchDoc) : MatchDoc :=
  if m.user1Action = .like ∧ m.user2Action = .like then
    { m with
      isMatch := true
      matchedAt := match m.matchedAt with
        | some t => some t
        | none => some now }
  else
    { m with isMatch := false, matchedAt := none }

/-- Saving a Match runs the self-match validation hook and then the match
derivation hook; `none` models the rejected save. -/
def saveMatch (now : Int) (m : MatchDoc) : Option MatchDoc :=
  if m.user1Id = m.user2Id then none
  else some (matchPreSave now m)

/-- `MatchingService.processSwipe` given the `findExistingMatch` result
for the pair: update the caller's still-`pending` slot of an existing
record, fail if the caller already acted, or create a fresh record with
the target's slot `pending`. -/
def processSwipe (now : Int) (newId : Nat) (userId targetUserId : UserId)
    (action : SwipeAction) (existing : Option MatchDoc) : Except String MatchDoc :=
  match existing with
  | some em =>
    if em.user1Id = userId then
      if em.user1Action = .pending then
        match saveMatch now { em with user1Action := action } with
        | some m => .ok m
        | none => .error "validation"
      else
        .error "User has already swiped on this profile"
    else
      if em.user2Action = .pending then
        match saveMatch now { em with user2Action := action } with
        | some m => .ok m
        | none => .error "validation"
      else
        .error "User has already swiped on this profile"
  | none =>
    match saveMatch now
        ⟨newId, userId, targetUserId, action, .pending, false, none, now⟩ with
    | some m => .ok m
    | none => .error "validation"

/-- Outcomes of `POST /api/discovery/swipe`. -/
inductive SwipeOutcome
  | notFound
  | selfSwipe
  | conflict
  | ok (m : MatchDoc)
  | err
deriving DecidableEq, Repr

/-- The swipe route handler: target-exists check, self-swipe check, then
the existing-match pre-check — any record for the pair, in either order
and regardless of whose slot is still `pending`, yields 409 CONFLICT —
and only otherwise `processSwipe`. -/
def routeSwipe (now : Int) (newId : Nat) (userId targetUserId : UserId)
    (targetExists : Bool) (action : SwipeAction)
    (existing : Option MatchDoc) : SwipeOutcome :=
  if ¬targetExists then .notFound
  else if userId = targetUserId then .selfSwipe
  else match existing with
    | some _ => .conflict
    | none =>
      match processSwipe now newId userId targetUserId action none with
      | .ok m => .ok m
      | .error _ => .err

/-! ## Notification model (unnamed parts: schema and NotificationService) -/

/-- The Notification document paths relevant to creation and read
receipts (`isRead` defaults to false, `readAt` unset). -/
structure NotificationDoc where
  userId : UserId
  type : Option String
  title : Option String
  message : Option String
  fromUserId : Option UserId
  isRead : Bool := false
  readAt : Option Int := none
deriving DecidableEq, Repr

/-- The Notification `markAsRead` model method: flip and stamp only when
unread, otherwise resolve without touching the document. -/
def notificationMarkAsRead (now : Int) (n : NotificationDoc) : NotificationDoc :=
  if ¬n.isRead then { n with isRead := true, readAt := some now }
  else n

/-- `NOTIFICATION_CONSTANTS.TYPES` values, the schema's `type` enum. -/
def notificationTypes : List String :=
  ["match", "message", "like", "view", "video_call"]

/-- The payload objects call sites build (`{title, message, fromUserId}`);
such an object has no `type` key. -/
structure NotifPayload where
  title : Option String
  message : Option String
  fromUserId : Option UserId
deriving DecidableEq, Repr

/-- The JS value bound to `createNotification`'s second parameter
`notificationData`: either a proper object or — at the buggy three-argument
call sites — the bare type string. -/
inductive NotifArg
  | jsString (s : String)
  | jsObject (type : Option String) (p : NotifPayload)
deriving DecidableEq, Repr

/-- Property access `notificationData.type` (undefined on a string). -/
def NotifArg.getType : NotifArg → Option String
  | .jsString _ => none
  | .jsObject t _ => t

/-- Property access `notificationData.title`. -/
def NotifArg.getTitle : NotifArg → Option String
  | .jsString _ => none
  | .jsObject _ p => p.title

/-- Property access `notificationData.message`. -/
def NotifArg.getMessage : NotifArg → Option String
  | .jsString _ => none
  | .jsObject _ p => p.message

/-- Property access `notificationData.fromUserId`. -/
def NotifArg.getFrom : NotifArg → Option UserId
  | .jsString _ => none
  | .jsObject _ p => p.fromUserId

/-- Schema validation on save: `type` (within the enum), `title` and
`message` are required. -/
def notificationValid (n : NotificationDoc) : Bool :=
  (match n.type with
    | some t => notificationTypes.contains t
    | none => false)
  && n.title.isSome && n.message.isSome

/-- `NotificationService.createNotification(userId, notificationData)`:
build the document from the fields of `notificationData` and save it;
a required-field validation failure rejects the save. -/
def createNotification (userId : UserId) (nd : NotifArg) : Except String NotificationDoc :=
  let doc : NotificationDoc :=
    { userId := userId, type := nd.getType, title := nd.getTitle,
      message := nd.getMessage, fromUserId := nd.getFrom }
  if notificationValid doc then .ok doc
  else .error "Failed to create notification"

/-- The three-argument call sites
`createNotification(recipient, typeString, payload)`: the service takes
two parameters, so `notificationData` is bound to the bare type string
and the payload argument is dropped. -/
def callSiteCreateNotification (recipient : UserId) (typeStr : String)
    (_payload : NotifPayload) : Except String NotificationDoc :=
  createNotification recipient (.jsString typeStr)

/-! ## Swipe undo (POST /api/discovery/undo) -/

/-- Persistent state the undo route can touch. -/
structure DiscoveryState where
  matchRecords : List MatchDoc
  notifications : List NotificationDoc
deriving Repr

/-- Among the records matching the query, `findOne` with
`sort createdAt: -1` returns one of maximal `createdAt`. -/
def findLatest : List MatchDoc → Option MatchDoc
  | [] => none
  | m :: rest =>
    match findLatest rest with
    | none => some m
    | some m' => if m.createdAt < m'.createdAt then some m' else some m

/-- The undo route's query: records whose `user1Id` is the caller and
whose `createdAt` is within the preceding five minutes. -/
def undoQuery (db : List MatchDoc) (callerId : UserId) (now : Int) : Option MatchDoc :=
  findLatest (db.filter (fun m => m.user1Id = callerId ∧ now - 5 * 60 * 1000 ≤ m.createdAt))

/-- `Match.findByIdAndDelete`: remove the (first) record with the given
id. -/
def deleteById : List MatchDoc → Nat → List MatchDoc
  | [], _ => []
  | m :: rest, i => if m.id = i then rest else m :: deleteById rest i

/-- Outcomes of `POST /api/discovery/undo`. -/
inductive UndoOutcome
  | forbidden
  | notFound
  | ok
deriving DecidableEq, Repr

/-- The undo route handler: premium gate, five-minute `user1Id` query,
delete the found record.  Notifications are never touched. -/
def undoSwipe (st : DiscoveryState) (callerId : UserId) (plan : Plan)
    (now : Int) : DiscoveryState × UndoOutcome :=
  if plan = .free then (st, .forbidden)
  else
    match undoQuery st.matchRecords callerId now with
    | none => (st, .notFound)
    | some m => ({ st with matchRecords := deleteById st.matchRecords m.id }, .ok)

/-! ## Video calls (src/models/VideoCall.js, src/routes/videocall.js, socket handler) -/

/-- `VIDEOCALL_CONSTANTS.STATUS`. -/
inductive CallStatus
  | pending
  | active
  | ended
  | declined
deriving DecidableEq, Repr

/-- A VideoCall document.  Timestamps are millisecond epoch values;
`duration` is in whole seconds (schema default 0). -/
structure VideoCall where
  callId : String
  participants : List UserId
  initiatorId : UserId
  status : CallStatus
  startTime : Option Int
  endTime : Option Int
  duration : Int
  dailyRoomUrl : Option String
  dailyRoomName : Option String
deriving DecidableEq, Repr

/-- The participant-validation `pre('save')` hook: exactly two distinct
participants and the initiator among them. -/
def validParticipants (c : VideoCall) : Bool :=
  match c.participants with
  | [a, b] => a ≠ b && (c.initiatorId = a ∨ c.initiatorId = b)
  | _ => false

/-- `Math.floor((endTime - startTime) / 1000)`: floor division of the
millisecond difference. -/
def callDuration (endMs startMs : Int) : Int :=
  Int.fdiv (endMs - startMs) 1000

/-- The duration `pre('save')` hook: for an `ended` call with both
timestamps and a still-falsy (zero) duration, derive the duration. -/
def durationHook (c : VideoCall) : VideoCall :=
  match c.status, c.startTime, c.endTime with
  | .ended, some s, some e =>
    if c.duration = 0 then { c with duration := callDuration e s } else c
  | _, _, _ => c

/-- Saving a VideoCall: required-field and participant validation, then
the duration hook.  `none` models the rejected save. -/
def saveCall (c : VideoCall) : Option VideoCall :=
  if validParticipants c && c.dailyRoomUrl.isSome && c.dailyRoomName.isSome then
    some (durationHook c)
  else
    none

/-- The six status-transition operations on an existing call record:
REST `PUT /:callId/accept|decline|end` and the socket
`call_accept`/`call_decline`/`call_end` handlers, each performed by user
`u` at time `now`. -/
inductive CallOp
  | restAccept (u : UserId) (now : Int)
  | restDecline (u : UserId) (now : Int)
  | restEnd (u : UserId) (now : Int)
  | sockAccept (u : UserId) (now : Int)
  | sockDecline (u : UserId) (now : Int)
  | sockEnd (u : UserId) (now : Int)
deriving DecidableEq, Repr

/-- Whether an operation is the socket `call_end` handler. -/
def CallOp.isSockEnd : CallOp → Bool
  | .sockEnd _ _ => true
  | _ => false

/-- Accept (REST and socket behave identically on the record): requires
the actor to be a participant and the call `pending`; sets `active` and
restamps `startTime`. -/
def acceptCallStep (u : UserId) (now : Int) (c : VideoCall) : Option VideoCall :=
  if c.participants.contains u then
    if c.status = .pending then
      saveCall { c with status := .active, startTime := some now }
    else none
  else none

/-- Decline (REST and socket): requires participant and `pending`; sets
`declined` and stamps `endTime`. -/
def declineCallStep (u : UserId) (now : Int) (c : VideoCall) : Option VideoCall :=
  if c.participants.contains u then
    if c.status = .pending then
      saveCall { c with status := .declined, endTime := some now }
    else none
  else none

/-- REST end: requires participant and `active`; stamps `endTime`,
computes the duration and sets `ended`.  A missing `startTime` makes the
JS subtraction `NaN`, which the numeric cast rejects on save; modelled
as a rejected save. -/
def restEndStep (u : UserId) (now : Int) (c : VideoCall) : Option VideoCall :=
  if c.participants.contains u then
    if c.status = .active then
      match c.startTime with
      | some s =>
        saveCall { c with status := .ended, endTime := some now,
                          duration := callDuration now s }
      | none => none
    else none
  else none

/-- The socket `call_end` handler: requires only that the actor is a
participant.  Duration and `endTime` are stamped only when the call was
`active` with a `startTime`; the status is then set to `ended`
unconditionally, whatever it was before. -/
def sockEndStep (u : UserId) (now : Int) (c : VideoCall) : Option VideoCall :=
  if c.participants.contains u then
    let c1 :=
      match c.status, c.startTime with
      | .active, some s =>
        { c with endTime := some now, duration := callDuration now s }
      | _, _ => c
    saveCall { c1 with status := .ended }
  else none

/-- Dispatch a transition operation; `none` is a refused (error-response)
or validation-rejected attempt that leaves the stored record unchanged. -/
def applyCallOp : CallOp → VideoCall → Option VideoCall
  | .restAccept u now, c => acceptCallStep u now c
  | .restDecline u now, c => declineCallStep u now c
  | .restEnd u now, c => restEndStep u now c
  | .sockAccept u now, c => acceptCallStep u now c
  | .sockDecline u now, c => declineCallStep u now c
  | .sockEnd u now, c => sockEndStep u now c

/-- The spec's strict one-step transition relation: `pending` to
`active`/`declined`, `active` to `ended`, nothing out of `ended` or
`declined`. -/
def strictStep (a b : CallStatus) : Prop :=
  (a = .pending ∧ (b = .active ∨ b = .declined)) ∨ (a = .active ∧ b = .ended)

instance (a b : CallStatus) : Decidable (strictStep a b) := by
  unfold strictStep; infer_instance

/-- The object `dailyService.createRoom` resolves with: keys `roomName`
and `roomUrl` (the `config` key is irrelevant here). -/
structure JsRoomData where
  entries : List (String × String)
deriving DecidableEq, Repr

/-- JS property access on the room-data object. -/
def JsRoomData.get (r : JsRoomData) (k : String) : Option String :=
  (r.entries.find? (fun e => e.1 = k)).map (fun e => e.2)

/-- `DailyService.createRoom`'s successful result. -/
def createRoomResult (name url : String) : JsRoomData :=
  ⟨[("roomName", name), ("roomUrl", url)]⟩

/-- Outcomes of `POST /api/videocall/initiate`. -/
inductive InitiateOutcome
  | notFound
  | forbidden
  | conflict
  | created (c : VideoCall)
  | validationError
deriving DecidableEq, Repr

/-- The `findOne` verifying a mutual match for the pair, in either order
and with `isMatch: true`. -/
def findMutualMatch (db : List MatchDoc) (a b : UserId) : Option MatchDoc :=
  db.find? (fun m =>
    ((m.user1Id = a ∧ m.user2Id = b) ∨ (m.user1Id = b ∧ m.user2Id = a)) ∧ m.isMatch)

/-- The `findOne` for an existing `pending`/`active` call containing both
users. -/
def findLiveCall (db : List VideoCall) (a b : UserId) : Option VideoCall :=
  db.find? (fun c =>
    c.participants.contains a ∧ c.participants.contains b ∧
    (c.status = .pending ∨ c.status = .active))

/-- `POST /api/videocall/initiate`: recipient lookup, mutual-match check,
live-call conflict check, room provisioning, then construction and save
of the call record.  The route stores `roomData.url` — a key the
room-provisioning result does not carry — as `dailyRoomUrl`, and never
assigns `dailyRoomName`. -/
def restInitiate (matchDb : List MatchDoc) (callDb : List VideoCall)
    (recipientExists : Bool) (initiatorId recipientUserId : UserId)
    (roomData : JsRoomData) (now : Int) : InitiateOutcome :=
  if ¬recipientExists then .notFound
  else
    match findMutualMatch matchDb initiatorId recipientUserId with
    | none => .forbidden
    | some _ =>
      match findLiveCall callDb initiatorId recipientUserId with
      | some _ => .conflict
      | none =>
        let doc : VideoCall :=
          { callId := "call_" ++ toString initiatorId ++ "_" ++
              toString recipientUserId ++ "_" ++ toString now
            participants := [initiatorId, recipientUserId]
            initiatorId := initiatorId
            status := .pending
            startTime := some now
            endTime := none
            duration := 0
            dailyRoomUrl := roomData.get "url"
            dailyRoomName := none }
        match saveCall doc with
        | some c => .created c
        | none => .validationError

/-- What the REST accept handler leaves behind: the saved record if the
state change went through, the notification if one was persisted, and
whether the HTTP response was a success. -/
structure AcceptOutcome where
  saved : Option VideoCall
  notif : Option NotificationDoc
  httpOk : Bool
deriving DecidableEq, Repr

/-- `PUT /api/videocall/:callId/accept` end to end: guards, save of the
`active` record, then the notification to the other participant through
the three-argument `createNotification(recipient, 'video_call', {...})`
call; a notification failure surfaces as an error response even though
the record was already saved. -/
def restAcceptFull (c : VideoCall) (u : UserId) (now : Int)
    (actorName : String) : AcceptOutcome :=
  if ¬(c.participants.contains u) then ⟨none, none, false⟩
  else if c.status ≠ .pending then ⟨none, none, false⟩
  else
    match saveCall { c with status := .active, startTime := some now } with
    | none => ⟨none, none, false⟩
    | some c' =>
      let other := ((c'.participants.filter (fun p => p ≠ u)).head?).getD 0
      match callSiteCreateNotification other "video_call"
          ⟨some "Call Accepted", some (actorName ++ " accepted your video call"),
           some u⟩ with
      | .ok n => ⟨some c', some n, true⟩
      | .error _ => ⟨some c', none, false⟩

/-! ## Messages and read receipts (src/models/Message.js, src/sockets/chat.js) -/

/-- A Conversation document (participant list only). -/
structure Conversation where
  participants : List UserId
deriving DecidableEq, Repr

/-- A Message document (read-receipt paths). -/
structure MessageDoc where
  senderId : UserId
  isRead : Bool
  readAt : Option Int
deriving DecidableEq, Repr

/-- The `markAsRead` model method: flip and stamp only when unread,
otherwise resolve without touching the document. -/
def markAsRead (now : Int) (m : MessageDoc) : MessageDoc :=
  if ¬m.isRead then { m with isRead := true, readAt := some now }
  else m

/-- The socket `message_read` handler: after the conversation-membership
guard, any non-sender sets `isRead` and restamps `readAt`,
unconditionally. -/
def sockMessageRead (conv : Conversation) (readerId : UserId) (now : Int)
    (m : MessageDoc) : MessageDoc :=
  if conv.participants.contains readerId then
    if m.senderId ≠ readerId then { m with isRead := true, readAt := some now }
    else m
  else m

/-! ## Presence (src/sockets/index.js) -/

/-- A connection lifecycle event for one user. -/
inductive ConnEvent
  | connect
  | disconnect
deriving DecidableEq, Repr

/-- Whether the event is a connection establishment. -/
def ConnEvent.isConnect : ConnEvent → Bool
  | .connect => true
  | .disconnect => false

/-- The observable presence state: the `isOnline` flag stored on the User
document, the number of genuinely live connections, and the log of
status-change broadcasts (`true` = `user_online`, `false` =
`user_offline`). -/
structure PresenceState where
  isOnline : Bool
  live : Nat
  broadcasts : List Bool
deriving DecidableEq, Repr

/-- One event: the connection handler sets `isOnline := true` and
broadcasts `user_online`; the disconnect handler sets
`isOnline := false` and broadcasts `user_offline` — in both cases
unconditionally, with no reference counting. -/
def stepPresence (st : PresenceState) : ConnEvent → PresenceState
  | .connect =>
    { isOnline := true, live := st.live + 1, broadcasts := st.broadcasts ++ [true] }
  | .disconnect =>
    { isOnline := false, live := st.live - 1, broadcasts := st.broadcasts ++ [false] }

/-- Run a connection-event trace from the initial (offline, no
connections) state. -/
def runPresence (evs : List ConnEvent) : PresenceState :=
  evs.foldl stepPresence ⟨false, 0, []⟩

/-- A trace is well formed when no disconnect outruns the established
connections. -/
def validTraceFrom (live : Nat) : List ConnEvent → Bool
  | [] => true
  | .connect :: rest => validTraceFrom (live + 1) rest
  | .disconnect :: rest => decide (0 < live) && validTraceFrom (live - 1) rest

/-- Counts the `0 → 1` and `1 → 0` crossings of the live-connection
count along a trace: the only points where a reference-counted registry
would broadcast. -/
def refCountCrossings (live : Nat) : List ConnEvent → Nat
  | [] => 0
  | .connect :: rest =>
    (if live = 0 then 1 else 0) + refCountCrossings (live + 1) rest
  | .disconnect :: rest =>
    (if live = 1 then 1 else 0) + refCountCrossings (live - 1) rest

/-! ## Supporting lemmas -/

/-- The duration hook never changes the status of a call. -/
theorem durationHook_status (c : VideoCall) : (durationHook c).status = c.status := by
  unfold durationHook
  split
  · split <;> rfl
  · rfl

/-- A successful save preserves the status the handler assigned. -/
theorem saveCall_status (d c' : VideoCall) (h : saveCall d = some c') :
    c'.status = d.status := by
  unfold saveCall at h
  split at h
  · cases h
    exact durationHook_status d
  · cases h

/-! ## Claim C1: call state-machine safety -/

/-- Claim C1 as stated: every successful transition operation that
changes a call's status follows the strict machine (`pending` to
`active`/`declined`, `active` to `ended`, nothing out of `ended` or
`declined`). -/
def claimC1Stated : Prop :=
  ∀ (op : CallOp) (c c' : VideoCall), applyCallOp op c = some c' →
    c'.status ≠ c.status → strictStep c.status c'.status

/-- A declined call whose record is otherwise fully formed. -/
def declinedCallEx : VideoCall :=
  ⟨"call_1_2_0", [1, 2], 1, .declined, some 0, some 5000, 0,
   some "https://example.daily.co/room", some "room"⟩

/-- Claim C1 fails: the socket `call_end` handler moves `declinedCallEx`
from `declined` to `ended`, a transition the strict machine forbids. -/
theorem claimC1_counterexample : ¬claimC1Stated := by
  intro h
  have hstep := h (.sockEnd 1 9000) declinedCallEx
      { declinedCallEx with status := .ended, duration := 5 }
      (by decide) (by decide)
  exact absurd hstep (by decide)

/-- Claim C1 amended: a status never leaves `ended`, and every
status-changing transition either follows the strict machine or is the
socket `call_end` handler, which forces any call it touches to `ended`
(in particular `pending` to `ended` and `declined` to `ended`). -/
theorem call_machine_amended (op : CallOp) (c c' : VideoCall)
    (h : applyCallOp op c = some c') :
    (c.status = .ended → c'.status = .ended) ∧
    (c'.status ≠ c.status →
      strictStep c.status c'.status ∨ (op.isSockEnd = true ∧ c'.status = .ended)) := by
  cases op with
  | restAccept u now =>
    dsimp [applyCallOp, acceptCallStep] at h
    split at h
    · split at h
      · rename_i hpend
        have hst := saveCall_status _ _ h
        constructor
        · intro hend; rw [hpend] at hend; cases hend
        · intro _; left; exact Or.inl ⟨hpend, Or.inl hst⟩
      · cases h
    · cases h
  | sockAccept u now =>
    dsimp [applyCallOp, acceptCallStep] at h
    split at h
    · split at h
      · rename_i hpend
        have hst := saveCall_status _ _ h
        constructor
        · intro hend; rw [hpend] at hend; cases hend
        · intro _; left; exact Or.inl ⟨hpend, Or.inl hst⟩
      · cases h
    · cases h
  | restDecline u now =>
    dsimp [applyCallOp, declineCallStep] at h
    split at h
    · split at h
      · rename_i hpend
        have hst := saveCall_status _ _ h
        constructor
        · intro hend; rw [hpend] at hend; cases hend
        · intro _; left; exact Or.inl ⟨hpend, Or.inr hst⟩
      · cases h
    · cases h
  | sockDecline u now =>
    dsimp [applyCallOp, declineCallStep] at h
    split at h
    · split at h
      · rename_i hpend
        have hst := saveCall_status _ _ h
        constructor
        · intro hend; rw [hpend] at hend; cases hend
        · intro _; left; exact Or.inl ⟨hpend, Or.inr hst⟩
      · cases h
    · cases h
  | restEnd u now =>
    dsimp [applyCallOp, restEndStep] at h
    split at h
    · split at h
      · rename_i hact
        split at h
        · have hst := saveCall_status _ _ h
          constructor
          · intro hend; rw [hact] at hend; cases hend
          · intro _; left; exact Or.inr ⟨hact, hst⟩
        · cases h
      · cases h
    · cases h
  | sockEnd u now =>
    dsimp [applyCallOp, sockEndStep] at h
    split at h
    · have hst := saveCall_status _ _ h
      constructor
      · intro _; exact hst
      · intro _; right; exact ⟨rfl, hst⟩
    · cases h

/-- A fully formed pending call. -/
def pendingCallEx : VideoCall :=
  ⟨"call_1_2_0", [1, 2], 1, .pending, some 0, none, 0,
   some "https://example.daily.co/room", some "room"⟩

/-- Witness for the amended C1 theorem: accepting `pendingCallEx` is a
status change covered by its conclusion. -/
theorem call_machine_amended_witness :
    strictStep CallStatus.pending CallStatus.active ∨
      ((CallOp.restAccept 2 5000).isSockEnd = true ∧ CallStatus.active = CallStatus.ended) := by
  have h := call_machine_amended (.restAccept 2 5000) pendingCallEx
      { pendingCallEx with status := .active, startTime := some 5000 }
      (by decide)
  exact h.2 (by decide)

/-! ## Claim C2: quota gate truth condition -/

/-- Claim C2 as stated: for every subscribed user and every feature of
the contract (`messages` included), the feature has a configured daily
limit and a daily usage counter, and the gate allows exactly when the
limit is the `-1` sentinel or the counter is strictly below the limit. -/
def claimC2Stated : Prop :=
  ∀ (s : Subscription) (now : JsDate) (f : Feature),
    ∃ l : Int, (resetDailyUsageIfNeeded now s).features.get f = some l ∧
      ∃ u : Int, (resetDailyUsageIfNeeded now s).usage.get f = some u ∧
        checkFeatureLimit (some s) now f = (if l = -1 then true else decide (u < l))

/-- Claim C2 fails for the feature `messages`: the Subscription schema
configures no `messagesPerDay` limit at all, for any plan. -/
theorem claimC2_counterexample : ¬claimC2Stated := by
  intro h
  obtain ⟨l, hl, -⟩ := h (Subscription.fresh .free ⟨2025, 0, 1⟩) ⟨2025, 0, 1⟩ .messages
  simp [resetDailyUsageIfNeeded, Subscription.fresh, SubFeatures.get] at hl

/-- Claim C2 amended: for `messages` — for which the model configures
neither a limit nor a counter — the gate denies unconditionally; for
every feature with a configured limit and counter (all four others) the
gate allows exactly when the limit is `-1` or the counter is strictly
below the limit. -/
theorem checkLimit_amended (s : Subscription) (now : JsDate) (f : Feature) :
    (f = .messages → checkFeatureLimit (some s) now f = false) ∧
    (∀ l u : Int,
      (resetDailyUsageIfNeeded now s).features.get f = some l →
      (resetDailyUsageIfNeeded now s).usage.get f = some u →
      checkFeatureLimit (some s) now f = (if l = -1 then true else decide (u < l))) := by
  constructor
  · intro hf
    subst hf
    simp [checkFeatureLimit, canPerformAction, SubFeatures.get, SubUsage.get, jsLt]
  · intro l u hl hu
    simp only [checkFeatureLimit, canPerformAction]
    rw [hl, hu]
    by_cases hneg : l = -1
    · simp [hneg]
    · simp [hneg, jsLt]

/-- Witness for the amended C2 theorem: a fresh free-plan subscription
may like (limit 20, counter 0). -/
theorem checkLimit_amended_witness :
    checkFeatureLimit (some (Subscription.fresh .free ⟨2025, 5, 14⟩)) ⟨2025, 5, 14⟩ .likes =
      (if (20 : Int) = -1 then true else decide ((0 : Int) < 20)) :=
  (checkLimit_amended (Subscription.fresh .free ⟨2025, 5, 14⟩) ⟨2025, 5, 14⟩ .likes).2
    20 0 (by decide) (by decide)

/-! ## Claim C3: daily reset travels with every read -/

/-- A strictly later calendar day always differs in at least one of the
compared date components, so the reset condition fires. -/
theorem laterCalendarDay_resetCond (a b : JsDate) (h : laterCalendarDay a b) :
    b.day ≠ a.day ∨ b.month ≠ a.month ∨ b.year ≠ a.year := by
  rcases h with hy | ⟨_, hm | ⟨_, hd⟩⟩
  · exact Or.inr (Or.inr (by omega))
  · exact Or.inr (Or.inl (by omega))
  · exact Or.inl (by omega)

/-- Claim C3: when `checkLimit` or `increment` runs on a calendar day
later than the stored `lastResetDate`, the counters it acts on are reset
to zero and `lastResetDate` advances to now within that same operation;
in particular the gate then decides from a clean-slate counter (allowing
exactly when the configured limit is `-1` or positive), whatever the
previous day's counters held. -/
theorem daily_reset_on_read (s : Subscription) (now : JsDate) (f : Feature)
    (h : laterCalendarDay s.usage.lastResetDate now) :
    (canPerformAction now s f).1.usage = ⟨0, 0, 0, 0, now⟩ ∧
    (incrementUsage now s f).usage.lastResetDate = now ∧
    (∀ l : Int, s.features.get f = some l →
      ((canPerformAction now s f).2 = true ↔ (l = -1 ∨ 0 < l))) := by
  have hcond := laterCalendarDay_resetCond _ _ h
  have hreset : resetDailyUsageIfNeeded now s = { s with usage := ⟨0, 0, 0, 0, now⟩ } := by
    unfold resetDailyUsageIfNeeded
    exact if_pos hcond
  refine ⟨?_, ?_, ?_⟩
  · simp [canPerformAction, hreset]
  · cases f <;> simp [incrementUsage, hreset, SubUsage.get, SubUsage.set]
  · intro l hl
    cases f <;> simp_all [canPerformAction, hreset, SubFeatures.get, SubUsage.get, jsLt] <;>
      by_cases hneg : l = -1 <;> simp [hneg] <;> omega

/-- A free-plan subscription that exhausted its likes yesterday. -/
def exhaustedSub : Subscription :=
  ⟨.free, featuresFor .free, ⟨2, 5, 20, 1, ⟨2025, 5, 13⟩⟩⟩

/-- Witness for C3: the morning after a maxed-out day, the counters the
gate reads are zero and a like is allowed again. -/
theorem daily_reset_on_read_witness :
    (canPerformAction ⟨2025, 5, 14⟩ exhaustedSub .likes).1.usage =
        ⟨0, 0, 0, 0, ⟨2025, 5, 14⟩⟩ ∧
      ((canPerformAction ⟨2025, 5, 14⟩ exhaustedSub .likes).2 = true ↔
        ((20 : Int) = -1 ∨ (0 : Int) < 20)) :=
  ⟨(daily_reset_on_read exhaustedSub ⟨2025, 5, 14⟩ .likes (by decide)).1,
   (daily_reset_on_read exhaustedSub ⟨2025, 5, 14⟩ .likes (by decide)).2.2 20 (by decide)⟩

/-! ## Claim C4: initiate postcondition -/

/-- With its preconditions satisfied and room provisioning successful,
the REST initiate handler still can never persist a call record: it
stores the absent `url` key of the room result (the service returns
`roomUrl`) and never assigns the required `dailyRoomName`, so the save
is always rejected by validation. -/
theorem restInitiate_never_creates (matchDb : List MatchDoc) (callDb : List VideoCall)
    (i r : UserId) (roomData : JsRoomData) (now : Int) (m : MatchDoc)
    (hm : findMutualMatch matchDb i r = some m)
    (hc : findLiveCall callDb i r = none) :
    restInitiate matchDb callDb true i r roomData now = .validationError := by
  simp only [restInitiate, hm, hc]
  simp [saveCall]

/-- A mutual match between users 1 and 2. -/
def mutualMatchEx : MatchDoc := ⟨20, 1, 2, .like, .like, true, some 100, 100⟩

/-- Claim C4's failing input evaluated: users 1 and 2 are mutually
matched, no live call exists, provisioning returns a room whose URL sits
under the `roomUrl` key (there is no `url` key) — and initiate answers
with a validation error instead of a created `pending` record. -/
theorem restInitiate_code_bug :
    (createRoomResult "relacio-room" "https://x.daily.co/relacio-room").get "roomUrl" =
        some "https://x.daily.co/relacio-room" ∧
      (createRoomResult "relacio-room" "https://x.daily.co/relacio-room").get "url" = none ∧
      restInitiate [mutualMatchEx] [] true 1 2
        (createRoomResult "relacio-room" "https://x.daily.co/relacio-room") 1000 =
        .validationError := by
  refine ⟨by decide, by decide, ?_⟩
  exact restInitiate_never_creates [mutualMatchEx] [] 1 2 _ 1000 mutualMatchEx
    (by decide) (by decide)

/-! ## Claim C5: transition notifications -/

/-- The transition call sites can never persist a notification: the
service binds its `notificationData` parameter to the bare type string,
so the required `type`, `title` and `message` paths are all undefined
and the save is rejected. -/
theorem callSite_notification_always_fails (recipient : UserId) (typeStr : String)
    (payload : NotifPayload) :
    callSiteCreateNotification recipient typeStr payload =
      .error "Failed to create notification" := rfl

/-- The accepted form of `pendingCallEx`. -/
def acceptedCallEx : VideoCall :=
  { pendingCallEx with status := .active, startTime := some 7000 }

/-- Claim C5's failing input evaluated: participant 2 accepts the
pending call; the record is saved as `active`, yet no Notification
document is persisted for the initiator and the REST response is an
error rather than a success. -/
theorem accept_notification_code_bug :
    restAcceptFull pendingCallEx 2 7000 "Bea" = ⟨some acceptedCallEx, none, false⟩ := by
  decide

/-! ## Claim C6: match derivation rule -/

/-- Claim C6 as stated: after any save, `isMatch` holds exactly when
both actions are `like` or one is `like` and the other `super_like`,
with `matchedAt` stamped once on the transition to true and cleared
whenever the actions do not sustain a match. -/
def claimC6Stated : Prop :=
  ∀ (now : Int) (m m' : MatchDoc), saveMatch now m = some m' →
    (m'.isMatch = true ↔
      ((m.user1Action = .like ∧ m.user2Action = .like) ∨
       (m.user1Action = .like ∧ m.user2Action = .superLike) ∨
       (m.user1Action = .superLike ∧ m.user2Action = .like))) ∧
    (m'.isMatch = true → m'.matchedAt = some (m.matchedAt.getD now)) ∧
    (m'.isMatch = false → m'.matchedAt = none)

/-- A record where user 1 super-liked and user 2 liked back. -/
def superLikePairEx : MatchDoc := ⟨30, 1, 2, .superLike, .like, false, none, 100⟩

/-- Claim C6 fails: a `super_like` answered by a `like` does not produce
a match — the save hook requires both actions to be exactly `like`. -/
theorem claimC6_counterexample : ¬claimC6Stated := by
  intro h
  have hiff := (h 500 superLikePairEx superLikePairEx (by decide)).1
  exact absurd (hiff.mpr (by decide)) (by decide)

/-- Claim C6 amended: after any save, `isMatch` holds exactly when both
action slots are exactly `like`; `matchedAt` is stamped once on the
transition to true (and preserved thereafter) and cleared whenever the
actions do not sustain a match. -/
theorem match_derivation_amended (now : Int) (m m' : MatchDoc)
    (h : saveMatch now m = some m') :
    (m'.isMatch = true ↔ (m.user1Action = .like ∧ m.user2Action = .like)) ∧
    (m'.isMatch = true → m'.matchedAt = some (m.matchedAt.getD now)) ∧
    (m'.isMatch = false → m'.matchedAt = none) := by
  unfold saveMatch at h
  split at h
  · cases h
  · cases h
    unfold matchPreSave
    split
    · rename_i hboth
      refine ⟨by simpa using hboth, ?_, by simp⟩
      intro _
      cases m.matchedAt <;> simp
    · rename_i hnot
      refine ⟨by simpa using hnot, by simp, by simp⟩

/-- A mutual-like record awaiting its save. -/
def bothLikeEx : MatchDoc := ⟨31, 1, 2, .like, .like, false, none, 100⟩

/-- Witness for the amended C6 theorem: saving `bothLikeEx` derives a
match and stamps `matchedAt` with the save time. -/
theorem match_derivation_witness :
    (matchPreSave 500 bothLikeEx).isMatch = true ∧
      (matchPreSave 500 bothLikeEx).matchedAt = some (bothLikeEx.matchedAt.getD 500) :=
  ⟨(match_derivation_amended 500 bothLikeEx (matchPreSave 500 bothLikeEx) rfl).1.mpr
      (by decide),
   (match_derivation_amended 500 bothLikeEx (matchPreSave 500 bothLikeEx) rfl).2.1
      (by decide)⟩

/-! ## Claim C7: match reciprocation -/

/-- A first swipe by user 1 on user 2, as `processSwipe` records it. -/
def firstSwipeEx : MatchDoc := ⟨20, 1, 2, .like, .pending, false, none, 100⟩

/-- Claim C7's failing input evaluated: user 1's first like creates the
record with the target slot `pending` and no match; the matching service
would turn user 2's reciprocal like into a match with `matchedAt`
stamped — but the swipe route's existing-match pre-check answers user
2's swipe with 409 CONFLICT before the service ever runs. -/
theorem reciprocal_swipe_code_bug :
    routeSwipe 100 20 1 2 true .like none = .ok firstSwipeEx ∧
      processSwipe 200 21 2 1 .like (some firstSwipeEx) =
        .ok ⟨20, 1, 2, .like, .like, true, some 200, 100⟩ ∧
      routeSwipe 200 21 2 1 true .like (some firstSwipeEx) = .conflict :=
  ⟨rfl, rfl, rfl⟩

/-! ## Claim C8: presence reference counting -/

/-- Claim C8 as stated: along every well-formed connection trace of one
user, the stored online flag equals "live connections > 0" and a
status-change broadcast happens exactly at each `0 → 1` / `1 → 0`
crossing of the live-connection count. -/
def claimC8Stated : Prop :=
  ∀ (evs : List ConnEvent), validTraceFrom 0 evs = true →
    (runPresence evs).isOnline = decide (0 < (runPresence evs).live) ∧
    (runPresence evs).broadcasts.length = refCountCrossings 0 evs

/-- Claim C8 fails: after two connections and one disconnect the user
still holds a live connection but the stored flag is offline, and three
broadcasts were sent where a reference-counted registry would send
one. -/
theorem claimC8_counterexample : ¬claimC8Stated := by
  intro h
  have := (h [.connect, .connect, .disconnect] (by decide)).1
  exact absurd this (by decide)

/-- Folding the presence step from any starting state tracks the last
event and appends one broadcast per event. -/
theorem foldl_stepPresence (evs : List ConnEvent) (st : PresenceState) :
    (evs.foldl stepPresence st).isOnline =
      (match evs.getLast? with
        | some e => e.isConnect
        | none => st.isOnline) ∧
    (evs.foldl stepPresence st).broadcasts =
      st.broadcasts ++ evs.map ConnEvent.isConnect := by
  induction evs generalizing st with
  | nil => simp
  | cons e rest ih =>
    have hstep : (stepPresence st e).broadcasts = st.broadcasts ++ [e.isConnect] := by
      cases e <;> rfl
    have hon : (stepPresence st e).isOnline = e.isConnect := by
      cases e <;> rfl
    constructor
    · rw [List.foldl_cons, (ih (stepPresence st e)).1]
      cases rest with
      | nil => simpa using hon
      | cons r rs => rfl
    · rw [List.foldl_cons, (ih (stepPresence st e)).2, hstep, List.append_assoc]
      rfl

/-- Claim C8 amended: the stored online flag simply follows the most
recent event — each connection establishment marks the user online and
each disconnect marks the user offline regardless of remaining live
connections — and every single event broadcasts a status change. -/
theorem presence_flag_amended (evs : List ConnEvent) :
    (runPresence evs).isOnline =
      (match evs.getLast? with
        | some e => e.isConnect
        | none => false) ∧
    (runPresence evs).broadcasts = evs.map ConnEvent.isConnect := by
  have h := foldl_stepPresence evs ⟨false, 0, []⟩
  exact ⟨h.1, by simpa using h.2⟩

/-! ## Claim C9: read-receipt idempotence -/

/-- Claim C9 as stated: on every mark-as-read path — the Message and
Notification model methods and the socket handler — re-marking an
already-read document changes nothing, and a sender can never mark
their own message read. -/
def claimC9Stated : Prop :=
  (∀ (now : Int) (m : MessageDoc), m.isRead = true → markAsRead now m = m) ∧
  (∀ (now : Int) (n : NotificationDoc), n.isRead = true →
    notificationMarkAsRead now n = n) ∧
  (∀ (conv : Conversation) (readerId : UserId) (now : Int) (m : MessageDoc),
    m.isRead = true → sockMessageRead conv readerId now m = m) ∧
  (∀ (conv : Conversation) (now : Int) (m : MessageDoc),
    sockMessageRead conv m.senderId now m = m)

/-- Claim C9 fails: the socket `message_read` handler restamps `readAt`
on a message that was already read. -/
theorem claimC9_counterexample : ¬claimC9Stated := by
  intro h
  have := h.2.2.1 ⟨[1, 2]⟩ 2 9 ⟨1, true, some 5⟩ rfl
  exact absurd this (by decide)

/-- Claim C9 amended: the Message and Notification model methods are
no-ops on already-read documents, and the sender can never mark their
own message read on the socket path; but the socket handler sets
`isRead` and restamps `readAt` on every invocation by a non-sender
participant, including on already-read messages. -/
theorem read_receipt_amended :
    (∀ (now : Int) (m : MessageDoc), m.isRead = true → markAsRead now m = m) ∧
    (∀ (now : Int) (n : NotificationDoc), n.isRead = true →
      notificationMarkAsRead now n = n) ∧
    (∀ (conv : Conversation) (now : Int) (m : MessageDoc),
      sockMessageRead conv m.senderId now m = m) ∧
    (∀ (conv : Conversation) (readerId : UserId) (now : Int) (m : MessageDoc),
      conv.participants.contains readerId = true → m.senderId ≠ readerId →
      sockMessageRead conv readerId now m =
        { m with isRead := true, readAt := some now }) := by
  refine ⟨?_, ?_, ?_, ?_⟩
  · intro now m hm
    simp [markAsRead, hm]
  · intro now n hn
    simp [notificationMarkAsRead, hn]
  · intro conv now m
    unfold sockMessageRead
    split
    · simp
    · rfl
  · intro conv readerId now m hmem hne
    simp only [sockMessageRead]
    rw [if_pos hmem, if_pos hne]

/-- Witness for the amended C9 theorem: an already-read message gets its
`readAt` restamped by the socket handler, while the model method leaves
it alone. -/
theorem read_receipt_amended_witness :
    markAsRead 9 ⟨1, true, some 5⟩ = ⟨1, true, some 5⟩ ∧
      sockMessageRead ⟨[1, 2]⟩ 2 9 ⟨1, true, some 5⟩ = ⟨1, true, some 9⟩ :=
  ⟨read_receipt_amended.1 9 ⟨1, true, some 5⟩ rfl,
   read_receipt_amended.2.2.2 ⟨[1, 2]⟩ 2 9 ⟨1, true, some 5⟩ (by decide) (by decide)⟩

/-! ## Claim C10: undo restrictions -/

/-- Removing a record by id removes nothing else. -/
theorem deleteById_sublist (l : List MatchDoc) (i : Nat) :
    List.Sublist (deleteById l i) l := by
  induction l with
  | nil => simp [deleteById]
  | cons m rest ih =>
    by_cases hm : m.id = i
    · simpa [deleteById, hm] using List.sublist_cons_self m rest
    · simpa [deleteById, hm] using List.Sublist.cons₂ m ih

/-- Removing a record by id removes at most one element. -/
theorem deleteById_length (l : List MatchDoc) (i : Nat) :
    l.length ≤ (deleteById l i).length + 1 := by
  induction l with
  | nil => simp [deleteById]
  | cons m rest ih =>
    by_cases hm : m.id = i
    · simp [deleteById, hm]
    · simpa [deleteById, hm] using ih

/-- Records with a different id survive removal. -/
theorem mem_deleteById_of_id_ne (l : List MatchDoc) (i : Nat) (x : MatchDoc)
    (hx : x ∈ l) (hne : x.id ≠ i) : x ∈ deleteById l i := by
  induction l with
  | nil => cases hx
  | cons m rest ih =>
    by_cases hm : m.id = i
    · rcases List.mem_cons.1 hx with hxm | hxr
      · exact absurd (hxm ▸ hne) (by simp [hm])
      · simpa [deleteById, hm] using hxr
    · rcases List.mem_cons.1 hx with hxm | hxr
      · simp [deleteById, hm, hxm]
      · simp [deleteById, hm, ih hxr]

/-- `findLatest` only ever answers with a member of its input. -/
theorem findLatest_mem (l : List MatchDoc) :
    ∀ m : MatchDoc, findLatest l = some m → m ∈ l := by
  induction l with
  | nil => intro m h; cases h
  | cons a rest ih =>
    intro m h
    unfold findLatest at h
    cases hr : findLatest rest with
    | none =>
      rw [hr] at h
      cases h
      exact List.mem_cons_self _ _
    | some m' =>
      rw [hr] at h
      have h' : (if a.createdAt < m'.createdAt then some m' else some a) = some m := h
      by_cases hlt : a.createdAt < m'.createdAt
      · rw [if_pos hlt] at h'
        cases h'
        exact List.mem_cons_of_mem _ (ih _ hr)
      · rw [if_neg hlt] at h'
        cases h'
        exact List.mem_cons_self _ _

/-- Claim C10: for any caller, plan and store state (with the usual
unique `_id`s), the undo route never touches notifications, does
nothing for free-plan callers, removes at most one match record while
inventing none, and any removed record was created by the caller
(stored as `user1Id`) within the preceding five minutes — so a
reciprocal swipe recorded on the other user's record can never be
undone. -/
theorem undo_swipe_safety (st : DiscoveryState) (callerId : UserId) (plan : Plan)
    (now : Int) (hids : (st.matchRecords.map MatchDoc.id).Nodup) :
    (undoSwipe st callerId plan now).1.notifications = st.notifications ∧
    (plan = .free → (undoSwipe st callerId plan now).1.matchRecords = st.matchRecords) ∧
    List.Sublist (undoSwipe st callerId plan now).1.matchRecords st.matchRecords ∧
    st.matchRecords.length ≤ (undoSwipe st callerId plan now).1.matchRecords.length + 1 ∧
    (∀ x ∈ st.matchRecords, x ∉ (undoSwipe st callerId plan now).1.matchRecords →
      x.user1Id = callerId ∧ now - 5 * 60 * 1000 ≤ x.createdAt) := by
  by_cases hp : plan = .free
  · refine ⟨by simp [undoSwipe, hp], fun _ => by simp [undoSwipe, hp], ?_, ?_, ?_⟩
    · simp [undoSwipe, hp]
    · simp [undoSwipe, hp]
    · intro x hx hnx
      exact absurd hx (by simpa [undoSwipe, hp] using hnx)
  · cases hq : undoQuery st.matchRecords callerId now with
    | none =>
      refine ⟨by simp [undoSwipe, hp, hq], fun hpf => absurd hpf hp, ?_, ?_, ?_⟩
      · simp [undoSwipe, hp, hq]
      · simp [undoSwipe, hp, hq]
      · intro x hx hnx
        exact absurd hx (by simpa [undoSwipe, hp, hq] using hnx)
    | some m0 =>
      have hres : (undoSwipe st callerId plan now).1.matchRecords =
          deleteById st.matchRecords m0.id := by
        simp [undoSwipe, hp, hq]
      have hm0filter : m0 ∈ st.matchRecords.filter
          (fun m => m.user1Id = callerId ∧ now - 5 * 60 * 1000 ≤ m.createdAt) :=
        findLatest_mem _ _ hq
      have hm0mem : m0 ∈ st.matchRecords := List.mem_of_mem_filter hm0filter
      have hm0prop : m0.user1Id = callerId ∧ now - 5 * 60 * 1000 ≤ m0.createdAt := by
        have hb := List.of_mem_filter hm0filter
        simpa using hb
      refine ⟨by simp [undoSwipe, hp, hq], fun hpf => absurd hpf hp, ?_, ?_, ?_⟩
      · rw [hres]
        exact deleteById_sublist _ _
      · rw [hres]
        exact deleteById_length _ _
      · intro x hx hnx
        rw [hres] at hnx
        have hxid : x.id = m0.id := by
          by_contra hne
          exact hnx (mem_deleteById_of_id_ne _ _ _ hx hne)
        have hxeq : x = m0 :=
          List.inj_on_of_nodup_map hids hx hm0mem hxid
        rw [hxeq]
        exact hm0prop

/-- A recent swipe by user 7 next to an older record by user 8. -/
def undoStateEx : DiscoveryState :=
  ⟨[⟨41, 7, 9, .like, .pending, false, none, 999000⟩,
    ⟨42, 8, 7, .like, .pending, false, none, 100⟩],
   [{ userId := 9, type := some "like", title := some "New Like!",
      message := some "Someone liked you", fromUserId := some 7 }]⟩

/-- Witness for C10: a premium caller's undo keeps notifications intact
and only ever shrinks the match list. -/
theorem undo_swipe_safety_witness :
    (undoSwipe undoStateEx 7 .premium 1000000).1.notifications =
        undoStateEx.notifications ∧
      List.Sublist (undoSwipe undoStateEx 7 .premium 1000000).1.matchRecords
        undoStateEx.matchRecords :=
  ⟨(undo_swipe_safety undoStateEx 7 .premium 1000000 (by decide)).1,
   (undo_swipe_safety undoStateEx 7 .premium 1000000 (by decide)).2.2.1⟩

end Relacio
